import Mathlib

set_option maxRecDepth 100000

/-!
Shallow embedding of `src/main.py` (ulauncher AI extension) and verification of
the specification's claims about it.

Python strings are modelled as Lean `String`s; where Python performs character
slicing and length arithmetic we work on `String.data : List Char`, which
matches Python's code-point semantics.  Machine-level side effects (HTTP,
filesystem, clock) are modelled as explicit inputs: the chat endpoint is a
function from attempt index to a response, the filesystem is a list of
directory entries with modification times, and so on.
-/

namespace AIUlauncher

/-- Python-style character-wise prefix test on `List Char`. -/
def leadMatch : List Char → List Char → Bool
  | [], _ => true
  | _ :: _, [] => false
  | a :: as, b :: bs => a = b && leadMatch as bs

/-- Python-style substring ("in") test: is `p` a contiguous infix of the second list? -/
def segMatch (p : List Char) : List Char → Bool
  | [] => p.isEmpty
  | c :: ls => leadMatch p (c :: ls) || segMatch p ls

/-- Python `s.startswith(p)`. -/
def pyStartsWith (s p : String) : Bool := leadMatch p.data s.data

/-- Python `s.endswith(p)`. -/
def pyEndsWith (s p : String) : Bool := leadMatch p.data.reverse s.data.reverse

/-- Python `s.lower()` (ASCII case folding, which is all the program compares). -/
def pyLower (s : String) : String := String.mk (s.data.map Char.toLower)

/-- Python `s[:n]`. -/
def pyTake (n : Nat) (s : String) : String := String.mk (s.data.take n)

/-- Python `s[n:]`. -/
def pyDrop (n : Nat) (s : String) : String := String.mk (s.data.drop n)

/-- Python `len(s)` (number of code points). -/
def pyLen (s : String) : Nat := s.data.length

/-- Python `s.strip()` on a character list. -/
def pyStripL (l : List Char) : List Char :=
  ((l.dropWhile Char.isWhitespace).reverse.dropWhile Char.isWhitespace).reverse

/-- Python `s.strip()`. -/
def pyStrip (s : String) : String := String.mk (pyStripL s.data)

/-- Python `text.split()`: split on whitespace runs, discarding empty pieces. -/
def pyWords (l : List Char) : List (List Char) :=
  (List.splitOnP Char.isWhitespace l).filter (fun w => !w.isEmpty)

/-- Python `s.replace('\n', rep)`: the replaced pattern is the single newline
character, so the substitution is character-wise. -/
def replaceNL (l : List Char) (rep : List Char) : List Char :=
  (l.map (fun c => if c = '\n' then rep else [c])).flatten

/-! ### `wrap_text_basic` / `wrap_text` (src/main.py lines 35-65) -/

/-- The inner `while len(word) > max_w` loop of `wrap_text_basic`: chop
`max_w`-sized chunks off the front of `word` until it fits; returns the chunks
(in order) and the remainder.  The first argument is fuel, instantiated with
`word.length`, which suffices whenever `0 < w` (the only way the source reaches
the loop, thanks to the `max_w <= 0` early return). -/
def hardSplitGo (w : Nat) : Nat → List Char → List (List Char) × List Char
  | 0, word => ([], word)
  | fuel + 1, word =>
    if w < word.length then
      let p := hardSplitGo w fuel (word.drop w)
      (word.take w :: p.1, p.2)
    else ([], word)

def hardSplit (w : Nat) (word : List Char) : List (List Char) × List Char :=
  hardSplitGo w word.length word

/-- One iteration of the `for word in words` loop of `wrap_text_basic`.
State is `(lines, current_line)`: if the word fits, extend `current_line`
with a space and the word; otherwise flush the (stripped) non-empty current
line, then either hard-split an over-long word or start a fresh line. -/
def wrapStep (w : Nat) (st : List (List Char) × List Char) (word : List Char) :
    List (List Char) × List Char :=
  if st.2.length + word.length ≤ w then
    (st.1, st.2 ++ ' ' :: word)
  else if w < word.length then
    ((if st.2.isEmpty then st.1 else st.1 ++ [pyStripL st.2]) ++ (hardSplit w word).1,
     (hardSplit w word).2)
  else
    (if st.2.isEmpty then st.1 else st.1 ++ [pyStripL st.2], word)

/-- The whole loop of `wrap_text_basic` plus the trailing
`if current_line: lines.append(current_line.strip())`. -/
def wrapWords (w : Nat) (words : List (List Char)) : List (List Char) :=
  if (words.foldl (wrapStep w) ([], [])).2.isEmpty then
    (words.foldl (wrapStep w) ([], [])).1
  else
    (words.foldl (wrapStep w) ([], [])).1 ++
      [pyStripL (words.foldl (wrapStep w) ([], [])).2]

/-- `'\n'.join(lines)` on character lists. -/
def joinNL (lines : List (List Char)) : List Char := (lines.intersperse ['\n']).flatten

/-- The list of lines `wrap_text_basic` produces for a given text and width
(the source joins them with `'\n'` before returning). -/
def wrapLines (text : String) (maxW : Int) : List (List Char) :=
  wrapWords maxW.toNat (pyWords text.data)

/-- `wrap_text_basic(text, max_w)` (src/main.py lines 43-65). -/
def wrap_text_basic (text : String) (maxW : Int) : String :=
  if maxW ≤ 0 then text
  else String.mk (joinNL (wrapLines text maxW))

/-- `wrap_text(text, max_w, theme)` (src/main.py lines 35-41): basic wrap, then
for the `'dark'` theme wrap the result in `**` and replace newlines by
`**<br>**`. -/
def wrap_text (text : String) (maxW : Int) (theme : String) : String :=
  let wrapped := wrap_text_basic text maxW
  if theme = "dark" then
    String.mk (('*' :: '*' :: replaceNL wrapped.data "**<br>**".data) ++ ['*', '*'])
  else wrapped

/-! ### Data model -/

/-- One conversation exchange (`{'user': ..., 'ai': ...}` in the source). -/
structure Exchange where
  user : String
  ai : String
deriving DecidableEq, Repr

/-- The per-process mutable state: the instance-level `conversation_history`
list and the class-level `GPTExtension.api_call_count` counter. -/
structure SessionState where
  history : List Exchange
  apiCallCount : Nat
deriving DecidableEq, Repr

/-- The `on_enter` action attached to a result item. -/
inductive Action where
  | copy (s : String)
  | doNothing
deriving DecidableEq, Repr

/-- An `ExtensionResultItem` (icon is the constant `EXTENSION_ICON` throughout). -/
structure ResultItem where
  name : String
  description : String
  onEnter : Action
deriving DecidableEq, Repr

/-- One chat-completion message (`{"role": ..., "content": ...}`). -/
structure ChatMessage where
  role : String
  content : String
deriving DecidableEq, Repr

/-- What one `requests.post` attempt against the chat endpoint yields:
either a response with a status code and a body, or a raised exception
(network error).  The body is abstracted to the value found at the fixed
JSON path `choices[0].message.content`: `some content` when the response
parses and the path exists, `none` when `response.json()` or the path
lookup would raise. -/
inductive HttpResp where
  | resp (status : Nat) (body : Option String)
  | netError
deriving DecidableEq, Repr

/-- The successfully parsed preferences (the values read in
src/main.py lines 170-180).  `lineWrap` is a `Nat` because the source parses
it with `int(...) if ....isdigit() else 0`. -/
structure Preferences where
  apiKey : String
  dalleKey : String
  temperature : String
  systemPrompt : String
  lineWrap : Nat
  enableWrapping : Bool
  model : String
  logDirectory : String
  theme : String
deriving DecidableEq, Repr

/-- Which `return` site of `on_event` produced the outcome. -/
inductive Branch where
  | prefError
  | quotaBlocked
  | clearHistory
  | viewHistory
  | imageNoKey
  | imageGen
  | exportEmpty
  | exportDone
  | blankQuery
  | chatRequestFailed
  | chatParseError
  | chatSuccess
deriving DecidableEq, Repr

/-- The observable outcome of one `on_event` invocation: the rendered items,
the successor state, how many POSTs were made to the chat endpoint, whether
the image endpoint was called, and (when the chat branch ran) the message
list sent in the request body. -/
structure EventOutcome where
  items : List ResultItem
  state : SessionState
  chatAttempts : Nat
  imageCalled : Bool
  sentMessages : Option (List ChatMessage)
  branch : Branch
deriving DecidableEq, Repr

/-! ### Retry loop (src/main.py lines 271-285)

`retries` starts at 0 and the loop runs `while retries <= max_retries` with
`max_retries = 2`; each iteration performs one POST.  A 200 response breaks
out of the loop immediately (the `try`'s `else` clause is skipped by
`break`); an exception leaves the `response` variable at its previous value,
a non-200 response replaces it; both increment `retries`.  We recurse on the
remaining iteration budget `3 - retries`, which starts at 3. -/

def retryGo (client : Nat → HttpResp) (attempts : Nat)
    (last : Option (Nat × Option String)) : Nat → Option (Nat × Option String) × Nat
  | 0 => (last, attempts)
  | n + 1 =>
    match client attempts with
    | HttpResp.resp s body =>
      if s = 200 then (some (s, body), attempts + 1)
      else retryGo client (attempts + 1) (some (s, body)) n
    | HttpResp.netError => retryGo client (attempts + 1) last n

/-- Run the retry loop: final `response` value (as status/body, `none` when
every attempt raised) together with the number of POSTs performed. -/
def retryLoop (client : Nat → HttpResp) : Option (Nat × Option String) × Nat :=
  retryGo client 0 none 3

/-! ### Fixed strings from the source -/

def quotaWarning : String := "Quota warning: Exceeded 50 calls this session."

def clearSuccessMsg : String := "Conversation history cleared"

def noHistoryMsg : String := "No history available."

def exportSuccessMsg : String := "Full log exported"

def noHistoryExportMsg : String := "No history to export"

def blankPromptMsg : String :=
  "Type a prompt, or try \x22clear history\x22, \x22view history\x22, \x22export full log\x22, \x22generate image [prompt]\x22..."

def requestFailedName : String := "Request failed"

def parseErrorName : String := "Parse error"

def imageGeneratedName : String := "Image generated"

/-- The request-failure description
`f'Request failed after {max_retries} retries: {...}'`, where the
interpolation is the last status code or `"No response"`. -/
def requestFailedMsg (resp : Option (Nat × Option String)) : String :=
  "Request failed after 2 retries: " ++
    (match resp with
     | some (s, _) => toString s
     | none => "No response")

/-- The parse-failure description `f'Failed to parse response: {str(err)}'`;
the exception text is abstracted since the response body is opaque here. -/
def parseErrorMsg : String := "Failed to parse response: "

/-- `'\n'.join([f"User: {ex['user'][:50]}... AI: {ex['ai'][:50]}..." for ex in
history[-5:]]) or loc['no_history']` (src/main.py lines 212-214). -/
def historyPreview (history : List Exchange) : String :=
  let s := String.intercalate "\n"
    ((history.drop (history.length - 5)).map fun ex =>
      "User: " ++ pyTake 50 ex.user ++ "... AI: " ++ pyTake 50 ex.ai ++ "...")
  if s = "" then noHistoryMsg else s

/-- `model.split("/")[-1]` in the success item's title. -/
def modelTail (model : String) : String := (model.splitOn "/").getLastD ""

/-- Message-list construction (src/main.py lines 262-266): start from the
system message, loop over the history appending a user and an assistant
message per exchange, then append the new query. -/
def buildMessages (sys : String) (history : List Exchange) (query : String) :
    List ChatMessage :=
  (history.foldl
    (fun ms ex => ms ++ [⟨"user", ex.user⟩, ⟨"assistant", ex.ai⟩])
    [⟨"system", sys⟩]) ++ [⟨"user", query⟩]

/-! ### `KeywordQueryEventListener.on_event` (src/main.py lines 163-327)

Inputs beyond the query string and the current state:
* `prefsE` — result of reading the preferences block (lines 170-180); an
  exception there carries its message;
* `client` — the chat endpoint, one `HttpResp` per POST attempt;
* `imageClient` — `generate_image`'s observable result for a given prompt
  (the returned URL or inline error string);
* `savePath` — the path (or `"Error: ..."` string) `save_log` returns.
-/

/-- The default (chat) branch of `on_event` (src/main.py lines 261-327):
build the message list, run the retry loop, then return the request-failed,
parse-error or success outcome; only the success outcome appends to the
history and increments the call counter. -/
def chatBranch (prefs : Preferences) (st : SessionState) (query : String)
    (client : Nat → HttpResp) : EventOutcome :=
  let messages := buildMessages prefs.systemPrompt st.history query
  let r := retryLoop client
  match r.1 with
  | none =>
    let errMsg := requestFailedMsg none
    { items := [⟨requestFailedName, errMsg, Action.copy errMsg⟩],
      state := st, chatAttempts := r.2, imageCalled := false,
      sentMessages := some messages, branch := Branch.chatRequestFailed }
  | some (s, body) =>
    if s ≠ 200 then
      let errMsg := requestFailedMsg (some (s, body))
      { items := [⟨requestFailedName, errMsg, Action.copy errMsg⟩],
        state := st, chatAttempts := r.2, imageCalled := false,
        sentMessages := some messages, branch := Branch.chatRequestFailed }
    else
      match body with
      | some content =>
        let wrapped :=
          if prefs.enableWrapping then
            wrap_text content (↑prefs.lineWrap) prefs.theme
          else content
        { items := [⟨"Response from " ++ modelTail prefs.model,
                     pyTake 200 wrapped ++
                       (if 200 < pyLen wrapped then "..." else ""),
                     Action.copy wrapped⟩],
          state := { history := st.history ++ [⟨query, content⟩],
                     apiCallCount := st.apiCallCount + 1 },
          chatAttempts := r.2, imageCalled := false,
          sentMessages := some messages, branch := Branch.chatSuccess }
      | none =>
        { items := [⟨parseErrorName, parseErrorMsg, Action.copy parseErrorMsg⟩],
          state := st, chatAttempts := r.2, imageCalled := false,
          sentMessages := some messages, branch := Branch.chatParseError }

def on_event (prefsE : Except String Preferences) (st : SessionState)
    (query : String) (client : Nat → HttpResp)
    (imageClient : String → String) (savePath : String) : EventOutcome :=
  match prefsE with
  | Except.error err =>
    { items := [⟨"Failed to parse preferences", err, Action.copy err⟩],
      state := st, chatAttempts := 0, imageCalled := false,
      sentMessages := none, branch := Branch.prefError }
  | Except.ok prefs =>
    if 50 < st.apiCallCount then
      { items := [⟨"Quota Exceeded", quotaWarning, Action.copy quotaWarning⟩],
        state := st, chatAttempts := 0, imageCalled := false,
        sentMessages := none, branch := Branch.quotaBlocked }
    else
      let searchTerm := query
      if pyLower searchTerm = "clear history" then
        { items := [⟨clearSuccessMsg, "", Action.doNothing⟩],
          state := { st with history := [] }, chatAttempts := 0,
          imageCalled := false, sentMessages := none,
          branch := Branch.clearHistory }
      else if pyLower searchTerm = "view history" then
        let preview := historyPreview st.history
        { items := [⟨"Recent Conversation History", preview, Action.copy preview⟩],
          state := st, chatAttempts := 0, imageCalled := false,
          sentMessages := none, branch := Branch.viewHistory }
      else if pyStartsWith (pyLower searchTerm) "generate image" then
        if prefs.dalleKey = "" then
          { items := [⟨"Image generation requires DALL-E API key",
                       "Set in preferences", Action.doNothing⟩],
            state := st, chatAttempts := 0, imageCalled := false,
            sentMessages := none, branch := Branch.imageNoKey }
        else
          let prompt := pyStrip (pyDrop 14 searchTerm)
          let imageUrl := imageClient prompt
          { items := [⟨imageGeneratedName, imageUrl, Action.copy imageUrl⟩],
            state := st, chatAttempts := 0, imageCalled := true,
            sentMessages := none, branch := Branch.imageGen }
      else if pyLower searchTerm = "export full log" then
        if st.history.isEmpty then
          { items := [⟨noHistoryExportMsg, "", Action.doNothing⟩],
            state := st, chatAttempts := 0, imageCalled := false,
            sentMessages := none, branch := Branch.exportEmpty }
        else
          { items := [⟨exportSuccessMsg, "Path: " ++ savePath, Action.copy savePath⟩],
            state := st, chatAttempts := 0, imageCalled := false,
            sentMessages := none, branch := Branch.exportDone }
      else if searchTerm = "" then
        { items := [⟨blankPromptMsg, "", Action.doNothing⟩],
          state := st, chatAttempts := 0, imageCalled := false,
          sentMessages := none, branch := Branch.blankQuery }
      else
        chatBranch prefs st searchTerm client

/-- Process a sequence of queries (each with its own chat client) through
`on_event`, threading the session state, with a fixed preferences block,
image client and save path. -/
def runQueries (prefsE : Except String Preferences)
    (imageClient : String → String) (savePath : String)
    (st : SessionState) : List (String × (Nat → HttpResp)) → SessionState
  | [] => st
  | (q, client) :: rest =>
    runQueries prefsE imageClient savePath
      (on_event prefsE st q client imageClient savePath).state rest

/-- A chat endpoint that always answers 200 with parsable content `c`. -/
def constClient (c : String) : Nat → HttpResp := fun _ => HttpResp.resp 200 (some c)

/-- A query (lowercased form) matching none of the special commands and
non-empty: the source treats it as a chat query. -/
def isChatQuery (q : String) : Bool :=
  !(pyLower q = "clear history") && !(pyLower q = "view history") &&
  !(pyStartsWith (pyLower q) "generate image") &&
  !(pyLower q = "export full log") && !(q = "")

/-! ### `cleanup_old_logs` (src/main.py lines 79-92)

The filesystem is a list of directory entries (name, mtime in seconds);
`glob` of `"ai_conversation_*.md"` keeps the entries whose name matches the
pattern, and an entry is removed when its mtime is strictly before
`now - days` (in days, i.e. `now - days * 86400` seconds). -/

structure DirEntry where
  name : String
  mtime : Int
deriving DecidableEq, Repr

/-- Does a file name match the glob pattern `ai_conversation_*.md`? -/
def matchesLogPattern (name : String) : Bool :=
  pyStartsWith name "ai_conversation_" && pyEndsWith name ".md"

/-- The entries `cleanup_old_logs` deletes. -/
def cleanupDeleted (entries : List DirEntry) (now : Int) (days : Int) : List DirEntry :=
  if days ≤ 0 then []
  else entries.filter
    (fun e => matchesLogPattern e.name && decide (e.mtime < now - days * 86400))

/-- The entries surviving `cleanup_old_logs`. -/
def cleanupSurviving (entries : List DirEntry) (now : Int) (days : Int) : List DirEntry :=
  if days ≤ 0 then entries
  else entries.filter
    (fun e => !(matchesLogPattern e.name && decide (e.mtime < now - days * 86400)))

/-! ### Model search (spec §4.4) -/

/-- The "no models found" placeholder item. -/
def noModelsItem : ResultItem := ⟨"No models found", "", Action.doNothing⟩

/-- Case-insensitive substring match of the query inside a model identifier. -/
def ciMatch (query id : String) : Bool :=
  segMatch (pyLower query).data (pyLower id).data

/-- Modelled from the spec: src/main.py has no model-search branch (its
router only handles clear/view history, generate image, export and chat),
but spec §4.4 specifies one: "model-search keyword → fetch the remote model
catalog, filter by case-insensitive substring match on model identifier,
return up to 8 items (copy-id action) or a 'no models found' item".  The
fetched catalog is the list of model identifiers passed in. -/
def model_search (catalog : List String) (query : String) : List ResultItem :=
  let ms := catalog.filter (fun id => ciMatch query id)
  if ms.isEmpty then [noModelsItem]
  else (ms.take 8).map (fun id => ⟨id, id, Action.copy id⟩)

/-! ### Concrete fixtures for witnesses and counterexamples -/

/-- A concrete parsed preferences block. -/
def prefs0 : Preferences :=
  { apiKey := "k", dalleKey := "", temperature := "0.7", systemPrompt := "s",
    lineWrap := 0, enableWrapping := false, model := "m", logDirectory := "",
    theme := "light" }

/-- A trivial image endpoint, used where the image branch is irrelevant. -/
def imgC : String → String := fun _ => ""

/-- A chat endpoint that always answers HTTP 500. -/
def failClient : Nat → HttpResp := fun _ => HttpResp.resp 500 none

/-- A chat endpoint whose first attempt raises a network error and whose
second attempt succeeds with content `c`. -/
def okAt1Client (c : String) : Nat → HttpResp :=
  fun i => if i = 0 then HttpResp.netError else HttpResp.resp 200 (some c)

/-- A concrete directory listing: with `now = 86500` and one retention day
the cutoff is mtime 100. -/
def logsFx : List DirEntry :=
  [⟨"ai_conversation_old.md", 0⟩, ⟨"ai_conversation_new.md", 100⟩,
   ⟨"notes.txt", 0⟩]

/-! ### Helper lemmas -/

theorem dropWhile_length_le (p : Char → Bool) (l : List Char) :
    (l.dropWhile p).length ≤ l.length := by
  induction l with
  | nil => simp
  | cons c cs ih =>
    by_cases h : p c
    · rw [List.dropWhile_cons, if_pos h]
      exact le_trans ih (Nat.le_succ _)
    · rw [List.dropWhile_cons, if_neg h]

theorem pyStripL_length_le (l : List Char) : (pyStripL l).length ≤ l.length := by
  unfold pyStripL
  calc ((l.dropWhile Char.isWhitespace).reverse.dropWhile Char.isWhitespace).reverse.length
      = ((l.dropWhile Char.isWhitespace).reverse.dropWhile Char.isWhitespace).length := by
        rw [List.length_reverse]
    _ ≤ (l.dropWhile Char.isWhitespace).reverse.length := dropWhile_length_le _ _
    _ = (l.dropWhile Char.isWhitespace).length := by rw [List.length_reverse]
    _ ≤ l.length := dropWhile_length_le _ _

theorem hardSplitGo_spec (w : Nat) (hw : 0 < w) :
    ∀ (fuel : Nat) (word : List Char), word.length ≤ fuel →
      (∀ c ∈ (hardSplitGo w fuel word).1, c.length = w) ∧
      (hardSplitGo w fuel word).2.length ≤ w := by
  intro fuel
  induction fuel with
  | zero =>
    intro word h
    refine ⟨by simp [hardSplitGo], ?_⟩
    show word.length ≤ w
    omega
  | succ n ih =>
    intro word h
    simp only [hardSplitGo]
    split
    · next hlt =>
      have hdrop : (word.drop w).length ≤ n := by
        rw [List.length_drop]; omega
      obtain ⟨hc, hr⟩ := ih (word.drop w) hdrop
      refine ⟨?_, hr⟩
      intro c hcmem
      rcases List.mem_cons.mp hcmem with hEq | hIn
      · subst hEq
        rw [List.length_take]
        omega
      · exact hc c hIn
    · next hge =>
      refine ⟨by simp, ?_⟩
      show word.length ≤ w
      omega

theorem hardSplit_spec (w : Nat) (hw : 0 < w) (word : List Char) :
    (∀ c ∈ (hardSplit w word).1, c.length = w) ∧
    (hardSplit w word).2.length ≤ w :=
  hardSplitGo_spec w hw word.length word (Nat.le_refl _)

theorem wrapStep_inv (w : Nat) (hw : 0 < w) (st : List (List Char) × List Char)
    (word : List Char)
    (h1 : ∀ l ∈ st.1, l.length ≤ w + 1) (h2 : st.2.length ≤ w + 1) :
    (∀ l ∈ (wrapStep w st word).1, l.length ≤ w + 1) ∧
    (wrapStep w st word).2.length ≤ w + 1 := by
  have hlines₁ : ∀ l ∈ (if st.2.isEmpty then st.1 else st.1 ++ [pyStripL st.2]),
      l.length ≤ w + 1 := by
    split
    · exact h1
    · intro l hl
      rcases List.mem_append.mp hl with hIn | hIn
      · exact h1 l hIn
      · rw [List.mem_singleton.mp hIn]
        exact le_trans (pyStripL_length_le _) h2
  unfold wrapStep
  split
  · next hfit =>
    refine ⟨h1, ?_⟩
    simp only [List.length_append, List.length_cons]
    omega
  · split
    · next hlong =>
      obtain ⟨hc, hr⟩ := hardSplit_spec w hw word
      constructor
      · intro l hl
        rcases List.mem_append.mp hl with hIn | hIn
        · exact hlines₁ l hIn
        · rw [hc l hIn]; omega
      · exact le_trans hr (Nat.le_succ w)
    · next hshort =>
      refine ⟨hlines₁, ?_⟩
      show word.length ≤ w + 1
      omega

theorem wrapFold_inv (w : Nat) (hw : 0 < w) :
    ∀ (words : List (List Char)) (st : List (List Char) × List Char),
      (∀ l ∈ st.1, l.length ≤ w + 1) → st.2.length ≤ w + 1 →
      (∀ l ∈ (words.foldl (wrapStep w) st).1, l.length ≤ w + 1) ∧
      (words.foldl (wrapStep w) st).2.length ≤ w + 1 := by
  intro words
  induction words with
  | nil => intro st h1 h2; exact ⟨h1, h2⟩
  | cons word rest ih =>
    intro st h1 h2
    obtain ⟨h1', h2'⟩ := wrapStep_inv w hw st word h1 h2
    exact ih (wrapStep w st word) h1' h2'

theorem wrapWords_length_le (w : Nat) (hw : 0 < w) (words : List (List Char)) :
    ∀ l ∈ wrapWords w words, l.length ≤ w + 1 := by
  obtain ⟨h1, h2⟩ :=
    wrapFold_inv w hw words ([], []) (by simp) (by simp)
  unfold wrapWords
  intro l hl
  split at hl
  · exact h1 l hl
  · rcases List.mem_append.mp hl with hIn | hIn
    · exact h1 l hIn
    · rw [List.mem_singleton.mp hIn]
      exact le_trans (pyStripL_length_le _) h2

theorem retryGo_never200 (client : Nat → HttpResp)
    (h : ∀ i b, client i ≠ HttpResp.resp 200 b) :
    ∀ (n attempts : Nat) (last : Option (Nat × Option String)),
      (∀ s b, last = some (s, b) → s ≠ 200) →
      (retryGo client attempts last n).2 = attempts + n ∧
      (∀ s b, (retryGo client attempts last n).1 = some (s, b) → s ≠ 200) := by
  intro n
  induction n with
  | zero => intro attempts last hlast; exact ⟨rfl, hlast⟩
  | succ n ih =>
    intro attempts last hlast
    simp only [retryGo]
    cases hc : client attempts with
    | netError =>
      dsimp only
      obtain ⟨ha, hl⟩ := ih (attempts + 1) last hlast
      exact ⟨by rw [ha]; omega, hl⟩
    | resp s body =>
      dsimp only
      have hs : s ≠ 200 := by
        intro hEq; subst hEq; exact h attempts body hc
      rw [if_neg hs]
      obtain ⟨ha, hl⟩ := ih (attempts + 1) (some (s, body))
        (by intro s' b' hEq; cases hEq; exact hs)
      exact ⟨by rw [ha]; omega, hl⟩

theorem retryLoop_never200 (client : Nat → HttpResp)
    (h : ∀ i b, client i ≠ HttpResp.resp 200 b) :
    (retryLoop client).2 = 3 ∧
    (∀ s b, (retryLoop client).1 = some (s, b) → s ≠ 200) := by
  obtain ⟨ha, hl⟩ := retryGo_never200 client h 3 0 none (by intro s b hEq; cases hEq)
  exact ⟨ha, hl⟩

theorem retryLoop_fail_then_ok (client : Nat → HttpResp) (body : Option String)
    (h0 : client 0 = HttpResp.netError ∨ ∃ s b, s ≠ 200 ∧ client 0 = HttpResp.resp s b)
    (h1 : client 1 = HttpResp.resp 200 body) :
    retryLoop client = (some (200, body), 2) := by
  unfold retryLoop
  rcases h0 with h0 | ⟨s, b, hs, h0⟩
  · simp [retryGo, h0, h1]
  · simp [retryGo, h0, h1, hs]

theorem retryGo_attempts_le (client : Nat → HttpResp) :
    ∀ (n attempts : Nat) (last : Option (Nat × Option String)),
      attempts ≤ (retryGo client attempts last n).2 := by
  intro n
  induction n with
  | zero => intro attempts last; exact Nat.le_refl _
  | succ n ih =>
    intro attempts last
    simp only [retryGo]
    cases client attempts with
    | netError =>
      dsimp only
      exact le_trans (Nat.le_succ _) (ih (attempts + 1) last)
    | resp s body =>
      dsimp only
      split
      · exact Nat.le_succ _
      · exact le_trans (Nat.le_succ _) (ih (attempts + 1) (some (s, body)))

theorem retryGo_succ_attempts (client : Nat → HttpResp)
    (n attempts : Nat) (last : Option (Nat × Option String)) :
    attempts + 1 ≤ (retryGo client attempts last (n + 1)).2 := by
  simp only [retryGo]
  cases client attempts with
  | netError =>
    dsimp only
    exact retryGo_attempts_le client n (attempts + 1) last
  | resp s body =>
    dsimp only
    split
    · exact Nat.le_refl _
    · exact retryGo_attempts_le client n (attempts + 1) (some (s, body))

theorem retryLoop_attempts_pos (client : Nat → HttpResp) :
    1 ≤ (retryLoop client).2 :=
  retryGo_succ_attempts client 2 0 none

theorem buildMessages_eq (sys : String) (history : List Exchange) (q : String) :
    buildMessages sys history q =
      ⟨"system", sys⟩ ::
        ((history.map fun e =>
            [(⟨"user", e.user⟩ : ChatMessage), ⟨"assistant", e.ai⟩]).flatten ++
          [⟨"user", q⟩]) := by
  unfold buildMessages
  have key : ∀ (h : List Exchange) (init : List ChatMessage),
      h.foldl (fun ms ex => ms ++ [⟨"user", ex.user⟩, ⟨"assistant", ex.ai⟩]) init =
        init ++ (h.map fun e =>
          [(⟨"user", e.user⟩ : ChatMessage), ⟨"assistant", e.ai⟩]).flatten := by
    intro h
    induction h with
    | nil => intro init; simp
    | cons e rest ih =>
      intro init
      simp only [List.foldl_cons, List.map_cons, List.flatten_cons, ih,
        List.append_assoc]
  rw [key]
  simp

theorem chatBranch_sentMessages (prefs : Preferences) (st : SessionState)
    (q : String) (client : Nat → HttpResp) :
    (chatBranch prefs st q client).sentMessages =
      some (buildMessages prefs.systemPrompt st.history q) := by
  unfold chatBranch
  dsimp only
  split
  · rfl
  · split
    · rfl
    · split <;> rfl

theorem chatBranch_attempts (prefs : Preferences) (st : SessionState)
    (q : String) (client : Nat → HttpResp) :
    (chatBranch prefs st q client).chatAttempts = (retryLoop client).2 := by
  unfold chatBranch
  dsimp only
  split
  · rfl
  · split
    · rfl
    · split <;> rfl

theorem chatBranch_success (prefs : Preferences) (st : SessionState) (q : String)
    (client : Nat → HttpResp) (c : String) (n : Nat)
    (h : retryLoop client = (some (200, some c), n)) :
    (chatBranch prefs st q client).branch = Branch.chatSuccess ∧
    (chatBranch prefs st q client).state =
      ⟨st.history ++ [⟨q, c⟩], st.apiCallCount + 1⟩ ∧
    (chatBranch prefs st q client).chatAttempts = n := by
  unfold chatBranch
  rw [h]
  simp

theorem chatBranch_requestFailed (prefs : Preferences) (st : SessionState)
    (q : String) (client : Nat → HttpResp)
    (h : ∀ s b, (retryLoop client).1 = some (s, b) → s ≠ 200) :
    (chatBranch prefs st q client).branch = Branch.chatRequestFailed ∧
    (chatBranch prefs st q client).state = st := by
  unfold chatBranch
  dsimp only
  cases hr : (retryLoop client).1 with
  | none => exact ⟨rfl, rfl⟩
  | some p =>
    obtain ⟨s, b⟩ := p
    have hs : s ≠ 200 := h s b hr
    dsimp only
    rw [if_pos hs]
    exact ⟨rfl, rfl⟩

theorem chatBranch_parseError (prefs : Preferences) (st : SessionState)
    (q : String) (client : Nat → HttpResp) (n : Nat)
    (h : retryLoop client = (some (200, none), n)) :
    (chatBranch prefs st q client).branch = Branch.chatParseError ∧
    (chatBranch prefs st q client).state = st ∧
    (chatBranch prefs st q client).chatAttempts = n := by
  unfold chatBranch
  rw [h]
  simp

theorem chatBranch_state_of_ne_success (prefs : Preferences) (st : SessionState)
    (q : String) (client : Nat → HttpResp)
    (h : (chatBranch prefs st q client).branch ≠ Branch.chatSuccess) :
    (chatBranch prefs st q client).state = st := by
  revert h
  unfold chatBranch
  dsimp only
  split
  · intro _; rfl
  · split
    · intro _; rfl
    · split
      · intro h; exact absurd rfl h
      · intro _; rfl

theorem chatBranch_count_of_success (prefs : Preferences) (st : SessionState)
    (q : String) (client : Nat → HttpResp)
    (h : (chatBranch prefs st q client).branch = Branch.chatSuccess) :
    (chatBranch prefs st q client).state.apiCallCount = st.apiCallCount + 1 := by
  revert h
  unfold chatBranch
  dsimp only
  split
  · intro h; exact absurd h (by simp)
  · split
    · intro h; exact absurd h (by simp)
    · split
      · intro _; rfl
      · intro h; exact absurd h (by simp)

theorem isChatQuery_spec (q : String) (hq : isChatQuery q = true) :
    ¬(pyLower q = "clear history") ∧ ¬(pyLower q = "view history") ∧
    pyStartsWith (pyLower q) "generate image" = false ∧
    ¬(pyLower q = "export full log") ∧ ¬(q = "") := by
  simp only [isChatQuery, Bool.and_eq_true, Bool.not_eq_true',
    decide_eq_false_iff_not] at hq
  tauto

theorem on_event_quota (prefs : Preferences) (st : SessionState) (q : String)
    (client : Nat → HttpResp) (ic : String → String) (sp : String)
    (h : 50 < st.apiCallCount) :
    on_event (Except.ok prefs) st q client ic sp =
      { items := [⟨"Quota Exceeded", quotaWarning, Action.copy quotaWarning⟩],
        state := st, chatAttempts := 0, imageCalled := false,
        sentMessages := none, branch := Branch.quotaBlocked } := by
  unfold on_event
  dsimp only
  rw [if_pos h]

theorem on_event_chat (prefs : Preferences) (st : SessionState) (q : String)
    (client : Nat → HttpResp) (ic : String → String) (sp : String)
    (hq : isChatQuery q = true) (hcnt : st.apiCallCount ≤ 50) :
    on_event (Except.ok prefs) st q client ic sp = chatBranch prefs st q client := by
  obtain ⟨h1, h2, h3, h4, h5⟩ := isChatQuery_spec q hq
  unfold on_event
  dsimp only
  rw [if_neg (by omega : ¬ 50 < st.apiCallCount), if_neg h1, if_neg h2,
    if_neg (by simp [h3]), if_neg h4, if_neg h5]

theorem on_event_clear (prefs : Preferences) (st : SessionState) (q : String)
    (client : Nat → HttpResp) (ic : String → String) (sp : String)
    (hq : pyLower q = "clear history") (hcnt : st.apiCallCount ≤ 50) :
    on_event (Except.ok prefs) st q client ic sp =
      { items := [⟨clearSuccessMsg, "", Action.doNothing⟩],
        state := { st with history := [] }, chatAttempts := 0,
        imageCalled := false, sentMessages := none,
        branch := Branch.clearHistory } := by
  unfold on_event
  dsimp only
  rw [if_neg (by omega : ¬ 50 < st.apiCallCount), if_pos hq]

theorem on_event_count (prefsE : Except String Preferences) (st : SessionState)
    (q : String) (client : Nat → HttpResp) (ic : String → String) (sp : String) :
    ((on_event prefsE st q client ic sp).branch = Branch.chatSuccess ∧
     (on_event prefsE st q client ic sp).state.apiCallCount = st.apiCallCount + 1) ∨
    ((on_event prefsE st q client ic sp).branch ≠ Branch.chatSuccess ∧
     (on_event prefsE st q client ic sp).state.apiCallCount = st.apiCallCount) := by
  cases prefsE with
  | error e => right; exact ⟨by simp [on_event], rfl⟩
  | ok prefs =>
    unfold on_event
    dsimp only
    by_cases h50 : 50 < st.apiCallCount
    · rw [if_pos h50]
      right; exact ⟨by simp, rfl⟩
    · rw [if_neg h50]
      repeat' split
      all_goals try (right; exact ⟨by simp, rfl⟩)
      by_cases hb : (chatBranch prefs st q client).branch = Branch.chatSuccess
      · left
        exact ⟨hb, chatBranch_count_of_success prefs st q client hb⟩
      · right
        exact ⟨hb, by rw [chatBranch_state_of_ne_success prefs st q client hb]⟩

theorem runQueries_success (prefs : Preferences) (ic : String → String) (sp : String) :
    ∀ (qcs : List (String × String)) (st : SessionState),
      (∀ qc ∈ qcs, isChatQuery qc.1 = true) →
      st.apiCallCount + qcs.length ≤ 51 →
      runQueries (Except.ok prefs) ic sp st
        (qcs.map fun qc => (qc.1, constClient qc.2)) =
      ⟨st.history ++ qcs.map (fun qc => ⟨qc.1, qc.2⟩),
       st.apiCallCount + qcs.length⟩ := by
  intro qcs
  induction qcs with
  | nil => intro st _ _; simp [runQueries]
  | cons qc rest ih =>
    intro st hall hle
    simp only [List.map_cons, runQueries]
    have hcnt : st.apiCallCount ≤ 50 := by
      simp only [List.length_cons] at hle; omega
    rw [on_event_chat prefs st qc.1 (constClient qc.2) ic sp
      (hall qc (by simp)) hcnt]
    have hsucc := chatBranch_success prefs st qc.1 (constClient qc.2) qc.2 1 rfl
    rw [hsucc.2.1]
    rw [ih { history := st.history ++ [⟨qc.1, qc.2⟩],
             apiCallCount := st.apiCallCount + 1 }
      (fun x hx => hall x (by simp [hx]))
      (by simp only [List.length_cons] at hle; simp; omega)]
    simp only [List.map_cons, List.length_cons, SessionState.mk.injEq,
      List.append_assoc, List.cons_append, List.nil_append]
    constructor
    · trivial
    · omega

theorem chatBranch_ne_quota (prefs : Preferences) (st : SessionState)
    (q : String) (client : Nat → HttpResp) :
    (chatBranch prefs st q client).branch ≠ Branch.quotaBlocked := by
  unfold chatBranch
  dsimp only
  split
  · simp
  · split
    · simp
    · split <;> simp

theorem chatBranch_items_length (prefs : Preferences) (st : SessionState)
    (q : String) (client : Nat → HttpResp) :
    (chatBranch prefs st q client).items.length = 1 := by
  unfold chatBranch
  dsimp only
  split
  · rfl
  · split
    · rfl
    · split <;> rfl

theorem chatBranch_requestFailed_items (prefs : Preferences) (st : SessionState)
    (q : String) (client : Nat → HttpResp)
    (h : (chatBranch prefs st q client).branch = Branch.chatRequestFailed) :
    ∃ m, (chatBranch prefs st q client).items =
      [⟨requestFailedName, m, Action.copy m⟩] := by
  revert h
  unfold chatBranch
  dsimp only
  split
  · intro _; exact ⟨_, rfl⟩
  · split
    · intro _; exact ⟨_, rfl⟩
    · split
      · intro h; exact absurd h (by simp)
      · intro h; exact absurd h (by simp)

theorem chatBranch_parseError_items (prefs : Preferences) (st : SessionState)
    (q : String) (client : Nat → HttpResp)
    (h : (chatBranch prefs st q client).branch = Branch.chatParseError) :
    (chatBranch prefs st q client).items =
      [⟨parseErrorName, parseErrorMsg, Action.copy parseErrorMsg⟩] := by
  revert h
  unfold chatBranch
  dsimp only
  split
  · intro h; exact absurd h (by simp)
  · split
    · intro h; exact absurd h (by simp)
    · split
      · intro h; exact absurd h (by simp)
      · intro _; rfl

theorem chatBranch_state_cases (prefs : Preferences) (st : SessionState)
    (q : String) (client : Nat → HttpResp) :
    (chatBranch prefs st q client).state = st ∨
    ((chatBranch prefs st q client).branch = Branch.chatSuccess ∧
     ∃ c, (chatBranch prefs st q client).state =
       ⟨st.history ++ [⟨q, c⟩], st.apiCallCount + 1⟩) := by
  unfold chatBranch
  dsimp only
  split
  · left; rfl
  · split
    · left; rfl
    · split
      · right; exact ⟨rfl, _, rfl⟩
      · left; rfl

theorem on_event_items_length (prefsE : Except String Preferences)
    (st : SessionState) (q : String) (client : Nat → HttpResp)
    (ic : String → String) (sp : String) :
    (on_event prefsE st q client ic sp).items.length = 1 := by
  cases prefsE with
  | error e => rfl
  | ok prefs =>
    unfold on_event
    dsimp only
    by_cases h50 : 50 < st.apiCallCount
    · rw [if_pos h50]; rfl
    · rw [if_neg h50]
      repeat' split
      all_goals try rfl
      exact chatBranch_items_length prefs st q client

theorem on_event_requestFailed_items (prefsE : Except String Preferences)
    (st : SessionState) (q : String) (client : Nat → HttpResp)
    (ic : String → String) (sp : String)
    (h : (on_event prefsE st q client ic sp).branch = Branch.chatRequestFailed) :
    ∃ m, (on_event prefsE st q client ic sp).items =
      [⟨requestFailedName, m, Action.copy m⟩] := by
  revert h
  cases prefsE with
  | error e => intro h; exact absurd h (by simp [on_event])
  | ok prefs =>
    unfold on_event
    dsimp only
    by_cases h50 : 50 < st.apiCallCount
    · rw [if_pos h50]
      intro h; exact absurd h (by simp)
    · rw [if_neg h50]
      repeat' split
      all_goals try (intro h; exact absurd h (by simp))
      exact chatBranch_requestFailed_items prefs st q client

theorem on_event_parseError_items (prefsE : Except String Preferences)
    (st : SessionState) (q : String) (client : Nat → HttpResp)
    (ic : String → String) (sp : String)
    (h : (on_event prefsE st q client ic sp).branch = Branch.chatParseError) :
    (on_event prefsE st q client ic sp).items =
      [⟨parseErrorName, parseErrorMsg, Action.copy parseErrorMsg⟩] := by
  revert h
  cases prefsE with
  | error e => intro h; exact absurd h (by simp [on_event])
  | ok prefs =>
    unfold on_event
    dsimp only
    by_cases h50 : 50 < st.apiCallCount
    · rw [if_pos h50]
      intro h; exact absurd h (by simp)
    · rw [if_neg h50]
      repeat' split
      all_goals try (intro h; exact absurd h (by simp))
      exact chatBranch_parseError_items prefs st q client

theorem on_event_state_cases (prefsE : Except String Preferences)
    (st : SessionState) (q : String) (client : Nat → HttpResp)
    (ic : String → String) (sp : String) :
    (on_event prefsE st q client ic sp).state = st ∨
    ((on_event prefsE st q client ic sp).branch = Branch.clearHistory ∧
     (on_event prefsE st q client ic sp).state = { st with history := [] }) ∨
    ((on_event prefsE st q client ic sp).branch = Branch.chatSuccess ∧
     ∃ c, (on_event prefsE st q client ic sp).state =
       ⟨st.history ++ [⟨q, c⟩], st.apiCallCount + 1⟩) := by
  cases prefsE with
  | error e => left; rfl
  | ok prefs =>
    unfold on_event
    dsimp only
    by_cases h50 : 50 < st.apiCallCount
    · rw [if_pos h50]; left; rfl
    · rw [if_neg h50]
      repeat' split
      all_goals try (left; rfl)
      · right; left; exact ⟨rfl, rfl⟩
      · rcases chatBranch_state_cases prefs st q client with h | ⟨hb, c, hst⟩
        · left; exact h
        · right; right; exact ⟨hb, c, hst⟩

/-! ### Claims -/

/-- C5 counterexample: with width 4 and the text `"ab cd ef"` (no word
longer than 4), the basic wrap produces the line `"cd ef"` of length 5:
the greedy length check `len(current_line + word) <= max_w` omits the
joining space, so a continuation line can exceed the width by one.  This
refutes the claim that no produced line exceeds w characters unless a
single word alone exceeds w. -/
theorem claim5_counterexample :
    (∀ w ∈ pyWords "ab cd ef".data, w.length ≤ 4) ∧
    wrap_text_basic "ab cd ef" 4 = "ab\ncd ef" ∧
    ∃ l ∈ wrapLines "ab cd ef" 4, 4 < l.length := by decide

/-- C5 (amended): for every text and width w > 0, every line produced by
the basic wrap has at most w + 1 characters (a continuation line can
exceed w by exactly the one unaccounted joining space), and a single word
longer than w is hard-split into chunks of exactly w characters plus a
remainder of at most w characters. -/
theorem claim5_wrap_bounds (text : String) (maxW : Int) (h : 0 < maxW) :
    (∀ l ∈ wrapLines text maxW, l.length ≤ maxW.toNat + 1) ∧
    (∀ word : List Char,
      (∀ c ∈ (hardSplit maxW.toNat word).1, c.length = maxW.toNat) ∧
      (hardSplit maxW.toNat word).2.length ≤ maxW.toNat) := by
  have hw : 0 < maxW.toNat := by omega
  refine ⟨?_, fun word => hardSplit_spec maxW.toNat hw word⟩
  intro l hl
  exact wrapWords_length_le maxW.toNat hw (pyWords text.data) l hl

/-- C5 witness: the amended bound at text `"ab cd ef"` and width 4. -/
theorem claim5_wrap_bounds_witness :
    (0 : Int) < 4 ∧
    ((∀ l ∈ wrapLines "ab cd ef" 4, l.length ≤ (4 : Int).toNat + 1) ∧
     (∀ word : List Char,
       (∀ c ∈ (hardSplit (4 : Int).toNat word).1, c.length = (4 : Int).toNat) ∧
       (hardSplit (4 : Int).toNat word).2.length ≤ (4 : Int).toNat)) :=
  ⟨by decide, claim5_wrap_bounds "ab cd ef" 4 (by decide)⟩

/-- C6 counterexample: with width 0 (≤ 0) and theme `'dark'`, `wrap_text`
does not return the input unchanged — it still applies the cosmetic bold
transform, yielding `"**a**"` for input `"a"`.  This refutes the claim for
"every theme". -/
theorem claim6_counterexample :
    (0 : Int) ≤ 0 ∧ wrap_text "a" 0 "dark" ≠ "a" ∧
    wrap_text "a" 0 "dark" = "**a**" := by decide

/-- C6 (amended): for every input text and width w ≤ 0 the basic wrap
returns the input unchanged byte-for-byte, and `wrap_text` does so for
every theme other than `'dark'`; the `'dark'` theme still applies its
bold/line-break transform even when wrapping is disabled. -/
theorem claim6_no_wrap (text : String) (maxW : Int) (h : maxW ≤ 0) :
    wrap_text_basic text maxW = text ∧
    ∀ theme, theme ≠ "dark" → wrap_text text maxW theme = text := by
  constructor
  · unfold wrap_text_basic; rw [if_pos h]
  · intro theme ht
    unfold wrap_text
    dsimp only
    rw [if_neg ht]
    unfold wrap_text_basic; rw [if_pos h]

/-- C6 witness: the amended statement at input `"a"`, width 0, theme
`'light'`. -/
theorem claim6_no_wrap_witness :
    (0 : Int) ≤ 0 ∧
    (wrap_text_basic "a" 0 = "a" ∧
     ∀ theme, theme ≠ "dark" → wrap_text "a" 0 theme = "a") :=
  ⟨by decide, claim6_no_wrap "a" 0 (by decide)⟩

/-- C7: retention cleanup is a no-op when retention-days ≤ 0; otherwise it
deletes exactly the files matching the log pattern whose modification time
is strictly before the cutoff `now − days`, and a file whose modification
time equals the cutoff is retained. -/
theorem claim7_cleanup (entries : List DirEntry) (now days : Int) :
    (days ≤ 0 → cleanupDeleted entries now days = [] ∧
       cleanupSurviving entries now days = entries) ∧
    (0 < days →
      (∀ e, e ∈ cleanupDeleted entries now days ↔
        e ∈ entries ∧ matchesLogPattern e.name = true ∧
        e.mtime < now - days * 86400) ∧
      (∀ e ∈ entries, e.mtime = now - days * 86400 →
        e ∈ cleanupSurviving entries now days)) := by
  constructor
  · intro h
    unfold cleanupDeleted cleanupSurviving
    rw [if_pos h, if_pos h]
    exact ⟨rfl, rfl⟩
  · intro h
    have hn : ¬ days ≤ 0 := by omega
    constructor
    · intro e
      unfold cleanupDeleted
      rw [if_neg hn]
      simp [List.mem_filter, and_assoc]
    · intro e he hm
      unfold cleanupSurviving
      rw [if_neg hn]
      rw [List.mem_filter]
      refine ⟨he, ?_⟩
      simp [hm]

/-- C7 witness: with `now = 86500` and a one-day window the cutoff is 100;
the matching file at mtime 0 is deleted and the matching file exactly at
the cutoff is retained. -/
theorem claim7_cleanup_witness :
    (0 : Int) < 1 ∧
    ((∀ e, e ∈ cleanupDeleted logsFx 86500 1 ↔
       e ∈ logsFx ∧ matchesLogPattern e.name = true ∧
       e.mtime < 86500 - 1 * 86400) ∧
     (∀ e ∈ logsFx, e.mtime = 86500 - 1 * 86400 →
       e ∈ cleanupSurviving logsFx 86500 1)) :=
  ⟨by decide, (claim7_cleanup logsFx 86500 1).2 (by decide)⟩

/-- C8: every invocation of the event handler terminates with exactly one
result list holding at least one item, and never propagates an error:
preference-parse failures, remote-call failures (after retries) and
response-parse failures are each converted into a result item. -/
theorem claim8_total (prefsE : Except String Preferences) (st : SessionState)
    (q : String) (client : Nat → HttpResp) (ic : String → String) (sp : String) :
    1 ≤ (on_event prefsE st q client ic sp).items.length ∧
    (∀ e, prefsE = Except.error e →
      (on_event prefsE st q client ic sp).items =
        [⟨"Failed to parse preferences", e, Action.copy e⟩]) ∧
    ((on_event prefsE st q client ic sp).branch = Branch.chatRequestFailed →
      ∃ m, (on_event prefsE st q client ic sp).items =
        [⟨requestFailedName, m, Action.copy m⟩]) ∧
    ((on_event prefsE st q client ic sp).branch = Branch.chatParseError →
      (on_event prefsE st q client ic sp).items =
        [⟨parseErrorName, parseErrorMsg, Action.copy parseErrorMsg⟩]) := by
  refine ⟨?_, ?_, ?_, ?_⟩
  · rw [on_event_items_length prefsE st q client ic sp]
  · intro e hEq
    subst hEq
    rfl
  · exact on_event_requestFailed_items prefsE st q client ic sp
  · exact on_event_parseError_items prefsE st q client ic sp

/-- C8 witness: a preference-parse failure is converted into the single
error item, and a request-failed chat query still yields one item. -/
theorem claim8_total_witness :
    (on_event (Except.error "boom") ⟨[], 0⟩ "" (constClient "a") imgC "p").items =
      [⟨"Failed to parse preferences", "boom", Action.copy "boom"⟩] ∧
    1 ≤ (on_event (Except.ok prefs0) ⟨[], 0⟩ "hi" failClient imgC "p").items.length :=
  ⟨(claim8_total (Except.error "boom") ⟨[], 0⟩ "" (constClient "a") imgC "p").2.1
      "boom" rfl,
   (claim8_total (Except.ok prefs0) ⟨[], 0⟩ "hi" failClient imgC "p").1⟩

/-- C9: model search filters the catalog by case-insensitive substring
match on the model identifier, returns at most 8 items each carrying a
copy-id action, or the single "no models found" item when nothing
matches.  (The model-search command is absent from src/main.py; the
definition is modelled from spec §4.4.) -/
theorem claim9_model_search (catalog : List String) (query : String) :
    (model_search catalog query).length ≤ 8 ∧
    ((∃ id ∈ catalog, ciMatch query id = true) →
      ∀ item ∈ model_search catalog query,
        ∃ id ∈ catalog, ciMatch query id = true ∧
          item = ⟨id, id, Action.copy id⟩) ∧
    ((∀ id ∈ catalog, ciMatch query id = false) →
      model_search catalog query = [noModelsItem]) := by
  by_cases he : (catalog.filter (fun id => ciMatch query id)).isEmpty
  · refine ⟨?_, ?_, ?_⟩
    · unfold model_search
      rw [if_pos he]
      simp
    · rintro ⟨id0, hid0, hm0⟩ item hitem
      exfalso
      have : id0 ∈ catalog.filter (fun id => ciMatch query id) :=
        List.mem_filter.mpr ⟨hid0, hm0⟩
      rw [List.isEmpty_iff.mp he] at this
      exact absurd this (List.not_mem_nil id0)
    · intro _
      unfold model_search
      rw [if_pos he]
  · refine ⟨?_, ?_, ?_⟩
    · unfold model_search
      rw [if_neg he, List.length_map, List.length_take]
      exact min_le_left _ _
    · intro _ item hitem
      unfold model_search at hitem
      rw [if_neg he] at hitem
      obtain ⟨id, hid, hEq⟩ := List.mem_map.mp hitem
      have hidms : id ∈ catalog.filter (fun id => ciMatch query id) :=
        (List.take_sublist _ _).subset hid
      obtain ⟨hcat, hmat⟩ := List.mem_filter.mp hidms
      exact ⟨id, hcat, hmat, hEq.symm⟩
    · intro hall
      exfalso
      have : catalog.filter (fun id => ciMatch query id) = [] := by
        rw [List.filter_eq_nil_iff]
        intro a ha
        simp [hall a ha]
      rw [this] at he
      exact he (by rfl)

/-- C9 witness: a matching query returns at most 8 copy-id items, and a
non-matching query returns the single "no models found" item. -/
theorem claim9_model_search_witness :
    (model_search ["alpha-1", "beta-2", "gamma"] "ALpha").length ≤ 8 ∧
    model_search ["alpha-1", "beta-2", "gamma"] "zzz" = [noModelsItem] :=
  ⟨(claim9_model_search ["alpha-1", "beta-2", "gamma"] "ALpha").1,
   (claim9_model_search ["alpha-1", "beta-2", "gamma"] "zzz").2.2 (by decide)⟩

/-- C1 counterexample: the source checks `api_call_count > 50`, so after 50
successful completions (counter = 50) the 51st successful completion
attempt is NOT short-circuited: it makes exactly one remote call and
succeeds.  This refutes the claim that the 51st attempt is short-circuited
without any remote call. -/
theorem claim1_counterexample :
    (runQueries (Except.ok prefs0) imgC "p" ⟨[], 0⟩
      (List.replicate 50 ("hi", constClient "a"))).apiCallCount = 50 ∧
    (on_event (Except.ok prefs0)
      (runQueries (Except.ok prefs0) imgC "p" ⟨[], 0⟩
        (List.replicate 50 ("hi", constClient "a")))
      "hi" (constClient "a") imgC "p").branch = Branch.chatSuccess ∧
    (on_event (Except.ok prefs0)
      (runQueries (Except.ok prefs0) imgC "p" ⟨[], 0⟩
        (List.replicate 50 ("hi", constClient "a")))
      "hi" (constClient "a") imgC "p").chatAttempts = 1 := by decide

/-- C1 (amended): the quota counter increments exactly on a fully
successful, parsed completion and is otherwise unchanged; while the counter
is at most 50 a chat query is not short-circuited (at least one remote call
is made); the guard is `count > 50`, so short-circuiting begins only once
the counter EXCEEDS the threshold: calls 1–51 proceed, and the 52nd
successful-completion attempt is the first to be short-circuited with the
quota-exceeded result and no remote call. -/
theorem claim1_quota (prefsE : Except String Preferences) (prefs : Preferences)
    (st : SessionState) (q : String) (client : Nat → HttpResp)
    (ic : String → String) (sp : String) :
    (((on_event prefsE st q client ic sp).branch = Branch.chatSuccess ∧
      (on_event prefsE st q client ic sp).state.apiCallCount =
        st.apiCallCount + 1) ∨
     ((on_event prefsE st q client ic sp).branch ≠ Branch.chatSuccess ∧
      (on_event prefsE st q client ic sp).state.apiCallCount =
        st.apiCallCount)) ∧
    (isChatQuery q = true → st.apiCallCount ≤ 50 →
      (on_event (Except.ok prefs) st q client ic sp).branch ≠
        Branch.quotaBlocked ∧
      1 ≤ (on_event (Except.ok prefs) st q client ic sp).chatAttempts) ∧
    (50 < st.apiCallCount →
      (on_event (Except.ok prefs) st q client ic sp).branch =
        Branch.quotaBlocked ∧
      (on_event (Except.ok prefs) st q client ic sp).chatAttempts = 0) := by
  refine ⟨on_event_count prefsE st q client ic sp, ?_, ?_⟩
  · intro hq hcnt
    rw [on_event_chat prefs st q client ic sp hq hcnt]
    refine ⟨chatBranch_ne_quota prefs st q client, ?_⟩
    rw [chatBranch_attempts]
    exact retryLoop_attempts_pos client
  · intro h
    rw [on_event_quota prefs st q client ic sp h]
    exact ⟨rfl, rfl⟩

/-- C1 witness: at counter 0 a chat query is not quota-blocked and makes a
remote call; at counter 51 the same query is quota-blocked with no remote
call. -/
theorem claim1_quota_witness :
    (isChatQuery "hi" = true ∧ (⟨[], 0⟩ : SessionState).apiCallCount ≤ 50 ∧
     (on_event (Except.ok prefs0) ⟨[], 0⟩ "hi" (constClient "a") imgC "p").branch ≠
       Branch.quotaBlocked ∧
     1 ≤ (on_event (Except.ok prefs0) ⟨[], 0⟩ "hi" (constClient "a") imgC
       "p").chatAttempts) ∧
    (50 < (⟨[], 51⟩ : SessionState).apiCallCount ∧
     (on_event (Except.ok prefs0) ⟨[], 51⟩ "hi" (constClient "a") imgC "p").branch =
       Branch.quotaBlocked ∧
     (on_event (Except.ok prefs0) ⟨[], 51⟩ "hi" (constClient "a") imgC
       "p").chatAttempts = 0) :=
  ⟨⟨by decide, by decide,
    (claim1_quota (Except.ok prefs0) prefs0 ⟨[], 0⟩ "hi" (constClient "a") imgC
      "p").2.1 (by decide) (by decide)⟩,
   ⟨by decide,
    (claim1_quota (Except.ok prefs0) prefs0 ⟨[], 51⟩ "hi" (constClient "a") imgC
      "p").2.2 (by decide)⟩⟩

/-- C2: for a chat query, a client that always answers non-200 or always
raises a network error yields exactly 3 total POST attempts and the
request-failed outcome; a client that fails on attempt 1 and succeeds with
parsable content on attempt 2 yields exactly 2 attempts and the success
outcome. -/
theorem claim2_retry (prefs : Preferences) (st : SessionState) (q : String)
    (client : Nat → HttpResp) (ic : String → String) (sp : String)
    (hq : isChatQuery q = true) (hcnt : st.apiCallCount ≤ 50) :
    (((∀ i, ∃ s b, s ≠ 200 ∧ client i = HttpResp.resp s b) ∨
      (∀ i, client i = HttpResp.netError)) →
      (on_event (Except.ok prefs) st q client ic sp).chatAttempts = 3 ∧
      (on_event (Except.ok prefs) st q client ic sp).branch =
        Branch.chatRequestFailed) ∧
    (∀ c,
      (client 0 = HttpResp.netError ∨
       ∃ s b, s ≠ 200 ∧ client 0 = HttpResp.resp s b) →
      client 1 = HttpResp.resp 200 (some c) →
      (on_event (Except.ok prefs) st q client ic sp).chatAttempts = 2 ∧
      (on_event (Except.ok prefs) st q client ic sp).branch =
        Branch.chatSuccess) := by
  rw [on_event_chat prefs st q client ic sp hq hcnt]
  constructor
  · intro hfail
    have hnever : ∀ i b, client i ≠ HttpResp.resp 200 b := by
      intro i b hEq
      rcases hfail with hf | hf
      · obtain ⟨s, b', hs, hc⟩ := hf i
        rw [hEq] at hc
        cases hc
        exact hs rfl
      · rw [hf i] at hEq
        cases hEq
    obtain ⟨ha, hl⟩ := retryLoop_never200 client hnever
    obtain ⟨hb, _⟩ := chatBranch_requestFailed prefs st q client hl
    refine ⟨?_, hb⟩
    rw [chatBranch_attempts, ha]
  · intro c h0 h1
    have hrl := retryLoop_fail_then_ok client (some c) h0 h1
    obtain ⟨hb, _, hat⟩ := chatBranch_success prefs st q client c 2 hrl
    exact ⟨hat, hb⟩

/-- C2 witness: a concrete all-500 client makes 3 attempts and fails; a
concrete fail-once-then-200 client makes 2 attempts and succeeds. -/
theorem claim2_retry_witness :
    ((on_event (Except.ok prefs0) ⟨[], 0⟩ "hi" failClient imgC "p").chatAttempts = 3 ∧
     (on_event (Except.ok prefs0) ⟨[], 0⟩ "hi" failClient imgC "p").branch =
       Branch.chatRequestFailed) ∧
    ((on_event (Except.ok prefs0) ⟨[], 0⟩ "hi" (okAt1Client "x") imgC
       "p").chatAttempts = 2 ∧
     (on_event (Except.ok prefs0) ⟨[], 0⟩ "hi" (okAt1Client "x") imgC "p").branch =
       Branch.chatSuccess) :=
  ⟨(claim2_retry prefs0 ⟨[], 0⟩ "hi" failClient imgC "p" (by decide)
      (by decide)).1 (Or.inl fun i => ⟨500, none, by decide, rfl⟩),
   (claim2_retry prefs0 ⟨[], 0⟩ "hi" (okAt1Client "x") imgC "p" (by decide)
      (by decide)).2 "x" (Or.inl rfl) rfl⟩

/-- C3: for every chat query and session state (with the quota guard not
yet tripped), the message list posted to the chat endpoint is exactly one
system message with the configured system prompt, then each stored exchange
as a (user, assistant) pair in insertion order, then the new query as the
final user message. -/
theorem claim3_messages (prefs : Preferences) (st : SessionState) (q : String)
    (client : Nat → HttpResp) (ic : String → String) (sp : String)
    (hq : isChatQuery q = true) (hcnt : st.apiCallCount ≤ 50) :
    (on_event (Except.ok prefs) st q client ic sp).sentMessages =
      some (⟨"system", prefs.systemPrompt⟩ ::
        ((st.history.map fun e =>
            [(⟨"user", e.user⟩ : ChatMessage), ⟨"assistant", e.ai⟩]).flatten ++
          [⟨"user", q⟩])) := by
  rw [on_event_chat prefs st q client ic sp hq hcnt,
    chatBranch_sentMessages, buildMessages_eq]

/-- C3 witness: with one stored exchange the posted list is system, user,
assistant, then the new user query. -/
theorem claim3_messages_witness :
    isChatQuery "hello" = true ∧
    (⟨[⟨"u1", "a1"⟩], 0⟩ : SessionState).apiCallCount ≤ 50 ∧
    (on_event (Except.ok prefs0) ⟨[⟨"u1", "a1"⟩], 0⟩ "hello" (constClient "r")
        imgC "p").sentMessages =
      some [⟨"system", "s"⟩, ⟨"user", "u1"⟩, ⟨"assistant", "a1"⟩,
        ⟨"user", "hello"⟩] := by
  refine ⟨by decide, by decide, ?_⟩
  rw [claim3_messages prefs0 ⟨[⟨"u1", "a1"⟩], 0⟩ "hello" (constClient "r")
    imgC "p" (by decide) (by decide)]
  rfl

/-- C4 counterexample: after 51 successful completions in one process the
counter is 51, so the subsequent 'clear history' command is quota-blocked
and does NOT reset Session State — refuting "resets Session State to empty
regardless of N". -/
theorem claim4_counterexample :
    pyLower "clear history" = "clear history" ∧
    (runQueries (Except.ok prefs0) imgC "p" ⟨[], 0⟩
      (List.replicate 51 ("hi", constClient "a"))).history.length = 51 ∧
    (on_event (Except.ok prefs0)
      (runQueries (Except.ok prefs0) imgC "p" ⟨[], 0⟩
        (List.replicate 51 ("hi", constClient "a")))
      "clear history" (constClient "a") imgC "p").state.history ≠ [] := by decide

/-- C4 (amended): an exchange pairing the query with its reply is appended
exactly on a successful, parsed completion; request-failed and parse-error
branches leave the history unchanged; running N successful chat completions
appends those N exchanges in call order (possible while the counter stays
within 51); and 'clear history' resets the history to empty provided the
quota counter is at most 50 — at counter 51 (reachable after 51 successes)
the quota guard fires first and the history is not cleared. -/
theorem claim4_history (prefs : Preferences) (st : SessionState) (q : String)
    (client : Nat → HttpResp) (ic : String → String) (sp : String) :
    (∀ c n, isChatQuery q = true → st.apiCallCount ≤ 50 →
      retryLoop client = (some (200, some c), n) →
      (on_event (Except.ok prefs) st q client ic sp).state.history =
        st.history ++ [⟨q, c⟩]) ∧
    ((on_event (Except.ok prefs) st q client ic sp).branch =
        Branch.chatRequestFailed ∨
     (on_event (Except.ok prefs) st q client ic sp).branch =
        Branch.chatParseError →
      (on_event (Except.ok prefs) st q client ic sp).state.history =
        st.history) ∧
    (∀ (qcs : List (String × String)) (st₀ : SessionState),
      (∀ qc ∈ qcs, isChatQuery qc.1 = true) →
      st₀.apiCallCount + qcs.length ≤ 51 →
      (runQueries (Except.ok prefs) ic sp st₀
        (qcs.map fun qc => (qc.1, constClient qc.2))).history =
        st₀.history ++ qcs.map (fun qc => ⟨qc.1, qc.2⟩)) ∧
    (pyLower q = "clear history" → st.apiCallCount ≤ 50 →
      (on_event (Except.ok prefs) st q client ic sp).state.history = []) := by
  refine ⟨?_, ?_, ?_, ?_⟩
  · intro c n hq hcnt hrl
    rw [on_event_chat prefs st q client ic sp hq hcnt]
    rw [(chatBranch_success prefs st q client c n hrl).2.1]
  · intro hb
    rcases on_event_state_cases (Except.ok prefs) st q client ic sp with
      hst | ⟨hbr, _⟩ | ⟨hbr, _⟩
    · rw [hst]
    · rcases hb with hb | hb <;> (rw [hbr] at hb; cases hb)
    · rcases hb with hb | hb <;> (rw [hbr] at hb; cases hb)
  · intro qcs st₀ hall hle
    rw [runQueries_success prefs ic sp qcs st₀ hall hle]
  · intro hq hcnt
    rw [on_event_clear prefs st q client ic sp hq hcnt]

/-- C4 witness: two successful completions append two exchanges in order,
and 'clear history' at counter ≤ 50 empties the history. -/
theorem claim4_history_witness :
    ((runQueries (Except.ok prefs0) imgC "p" ⟨[], 0⟩
       ([("q1", "r1"), ("q2", "r2")].map fun qc =>
         (qc.1, constClient qc.2))).history =
       [] ++ [("q1", "r1"), ("q2", "r2")].map (fun qc => ⟨qc.1, qc.2⟩)) ∧
    (on_event (Except.ok prefs0) ⟨[⟨"q1", "r1"⟩], 1⟩ "clear history"
      (constClient "a") imgC "p").state.history = [] :=
  ⟨(claim4_history prefs0 ⟨[], 0⟩ "x" (constClient "a") imgC "p").2.2.1
      [("q1", "r1"), ("q2", "r2")] ⟨[], 0⟩ (by decide) (by decide),
   (claim4_history prefs0 ⟨[⟨"q1", "r1"⟩], 1⟩ "clear history" (constClient "a")
      imgC "p").2.2.2 (by decide) (by decide)⟩

/-- C10: once the per-process quota counter exceeds 50, every invocation
whose preferences parse — including 'clear history', 'view history',
'export full log', 'generate image' and empty queries — returns the single
quota-exceeded item before any command dispatch, with no chat POST, no
image call and unchanged state; and the counter never decreases, so no
command of any kind is served again for the rest of the process lifetime. -/
theorem claim10_lockout (prefsE : Except String Preferences)
    (st : SessionState) (q : String) (client : Nat → HttpResp)
    (ic : String → String) (sp : String) :
    (50 < st.apiCallCount →
      (on_event prefsE st q client ic sp).state = st ∧
      (on_event prefsE st q client ic sp).chatAttempts = 0 ∧
      (on_event prefsE st q client ic sp).imageCalled = false ∧
      (∀ prefs, prefsE = Except.ok prefs →
        on_event prefsE st q client ic sp =
          { items := [⟨"Quota Exceeded", quotaWarning,
                       Action.copy quotaWarning⟩],
            state := st, chatAttempts := 0, imageCalled := false,
            sentMessages := none, branch := Branch.quotaBlocked })) ∧
    st.apiCallCount ≤ (on_event prefsE st q client ic sp).state.apiCallCount := by
  constructor
  · intro h50
    cases prefsE with
    | error e =>
      refine ⟨rfl, rfl, rfl, ?_⟩
      intro prefs hEq
      cases hEq
    | ok prefs =>
      rw [on_event_quota prefs st q client ic sp h50]
      refine ⟨rfl, rfl, rfl, ?_⟩
      intro prefs' hEq
      cases hEq
      rfl
  · rcases on_event_count prefsE st q client ic sp with ⟨_, h⟩ | ⟨_, h⟩ <;> omega

/-- C10 witness: at counter 51 even 'clear history' returns only the
quota-exceeded item and leaves the state untouched. -/
theorem claim10_lockout_witness :
    50 < (⟨[⟨"u", "a"⟩], 51⟩ : SessionState).apiCallCount ∧
    on_event (Except.ok prefs0) ⟨[⟨"u", "a"⟩], 51⟩ "clear history"
        (constClient "a") imgC "p" =
      { items := [⟨"Quota Exceeded", quotaWarning, Action.copy quotaWarning⟩],
        state := ⟨[⟨"u", "a"⟩], 51⟩, chatAttempts := 0, imageCalled := false,
        sentMessages := none, branch := Branch.quotaBlocked } :=
  ⟨by decide,
   ((claim10_lockout (Except.ok prefs0) ⟨[⟨"u", "a"⟩], 51⟩ "clear history"
       (constClient "a") imgC "p").1 (by decide)).2.2.2 prefs0 rfl⟩

end AIUlauncher
